import Mathlib

/-!
Shallow embedding of `src/isa.py`: execution-state predicates over a module
scope, the frame locator `get_last_module`, and the flag facade (`MAIN`,
`FILE`, `INTERACTIVE`, `SCRIPT`, `MODULE`) with its overloaded logical
operators, which return operand objects in the style of the host language
(`a or b` yields `a` when `a` is truthy, else `b`; `a and b` yields `a`
when `a` is falsy, else `b`).
-/

set_option autoImplicit false

/-- A scope mapping: only the two bindings the program ever reads are
modelled, each absent (`none`) or bound to a string.  `name` stands for
the binding at key `__name__`, `file` for the binding at key `__file__`. -/
structure Scope where
  name : Option String
  file : Option String
  deriving DecidableEq

/-- Embeds `is_main`: the source returns `globals.get("__name__") == "__main__"`;
an absent binding compares unequal to the sentinel. -/
def is_main (globals : Scope) : Bool :=
  globals.name == some "__main__"

/-- Embeds `is_file`: the source returns `bool(globals.get("__file__"))`;
an absent binding is falsy, a bound string is truthy when non-empty. -/
def is_file (globals : Scope) : Bool :=
  match globals.file with
  | none => false
  | some s => !s.isEmpty

/-- Embeds `is_interactive`: `is_main(globals) and not is_file(globals)`. -/
def is_interactive (globals : Scope) : Bool :=
  is_main globals && !is_file globals

/-- Embeds `is_module`: `not is_main(globals) and is_file(globals)`. -/
def is_module (globals : Scope) : Bool :=
  !is_main globals && is_file globals

/-- Embeds `is_script`: `is_main(globals) and is_file(globals)`. -/
def is_script (globals : Scope) : Bool :=
  is_main globals && is_file globals

/-- A stack frame, reduced to what `get_last_module` and the flags read:
the identities of its local and global mappings (identity comparison
`f_locals is f_globals` becomes equality of these numbers) and the scope
mapping held by `f_globals`. -/
structure Frame where
  f_locals_id : Nat
  f_globals_id : Nat
  f_globals : Scope
  deriving DecidableEq

/-- Embeds `get_last_module`: the call stack is a list of frames, innermost
first, as produced by `getouterframes(currentframe())`; the loop returns
the first frame whose local mapping is (by identity) its global mapping,
and falls off the end returning `None` otherwise. -/
def get_last_module : List Frame → Option Frame
  | [] => none
  | fr :: outer =>
    if fr.f_locals_id = fr.f_globals_id then some fr else get_last_module outer

/-- The five flag classes built on the `State` metaclass. -/
inductive State where
  | MAIN
  | FILE
  | INTERACTIVE
  | SCRIPT
  | MODULE
  deriving DecidableEq

/-- Embeds each flag class method `predicate`: `MAIN` tests `is_main`,
`FILE` tests `bool(is_file(globals))` (already boolean here), and the
remaining flags test the corresponding derived predicate. -/
def State.predicate : State → Scope → Bool
  | .MAIN, globals => is_main globals
  | .FILE, globals => is_file globals
  | .INTERACTIVE, globals => is_interactive globals
  | .SCRIPT, globals => is_script globals
  | .MODULE, globals => is_module globals

/-- Embeds `State.__bool__`: locate the caller module frame on the given
stack and apply the flag predicate to its globals; `none` models the
attribute error that would surface when no frame qualifies. -/
def flag_bool (f : State) (stack : List Frame) : Option Bool :=
  (get_last_module stack).map fun fr => f.predicate fr.f_globals

/-- An operand of the overloaded `|` and `&`: either one of the five flag
objects or a plain boolean. -/
inductive Operand where
  | flag : State → Operand
  | lit : Bool → Operand
  deriving DecidableEq

/-- Truthiness of an operand when every flag evaluation lands on the fixed
scope `g`: a flag re-runs its predicate, a plain boolean is itself. -/
def Operand.truthy : Operand → Scope → Bool
  | .flag f, g => f.predicate g
  | .lit b, _ => b

/-- The host language value of `a or b` with truthiness taken in scope `g`:
the first operand when truthy, else the second. -/
def py_or (g : Scope) (a b : Operand) : Operand :=
  if a.truthy g then a else b

/-- The host language value of `a and b` with truthiness taken in scope `g`:
the first operand when falsy, else the second. -/
def py_and (g : Scope) (a b : Operand) : Operand :=
  if a.truthy g then b else a

/-- Dispatch of the expression `a | b`: a flag on the left uses
`State.__or__(a, b) = a or b`; a boolean on the left with a flag on the
right falls through to `State.__ror__(b, a) = a or b`; two plain booleans
use the built-in bitwise or. -/
def op_or (g : Scope) : Operand → Operand → Operand
  | .flag a, b => py_or g (.flag a) b
  | .lit a, .flag b => py_or g (.lit a) (.flag b)
  | .lit a, .lit b => .lit (a || b)

/-- Dispatch of the expression `a & b`: a flag on the left uses
`State.__and__(a, b) = a and b`; a boolean on the left with a flag on the
right falls through to `State.__rand__(b, a) = b and a`, which puts the
flag first; two plain booleans use the built-in bitwise and. -/
def op_and (g : Scope) : Operand → Operand → Operand
  | .flag a, b => py_and g (.flag a) b
  | .lit a, .flag b => py_and g (.flag b) (.lit a)
  | .lit a, .lit b => .lit (a && b)

/-- Exactly one of three booleans is true. -/
def exactly_one (a b c : Bool) : Bool :=
  (a && !b && !c) || (!a && b && !c) || (!a && !b && c)

/-- At most one of three booleans is true. -/
def at_most_one (a b c : Bool) : Bool :=
  !(a && b) && !(a && c) && !(b && c)

/-- A scope with neither signal set: the name is not the entry-point
sentinel and no file binding is present. -/
def scope_plain : Scope := ⟨some "helper", none⟩

/-- The scope of a genuinely imported module: named other than the
sentinel, with a non-empty file binding. -/
def scope_module : Scope := ⟨some "isa", some "isa.py"⟩

/-- A module-level frame holding `scope_module`. -/
def frame_module : Frame := ⟨7, 7, scope_module⟩

/-- A call stack whose innermost frame is already module-level. -/
def stack_module : List Frame := [frame_module]

/-- An entry-point scope with no file binding (interactive session). -/
def scope_entry : Scope := ⟨some "__main__", none⟩

/-- Truthiness of `a or b` is the disjunction of the truthinesses. -/
theorem truthy_py_or (g : Scope) (a b : Operand) :
    (py_or g a b).truthy g = (a.truthy g || b.truthy g) := by
  cases h : a.truthy g <;> simp [py_or, h]

/-- Truthiness of `a and b` is the conjunction of the truthinesses. -/
theorem truthy_py_and (g : Scope) (a b : Operand) :
    (py_and g a b).truthy g = (a.truthy g && b.truthy g) := by
  cases h : a.truthy g <;> simp [py_and, h]

/-- Truthiness of a dispatched `a | b` is the disjunction of the
truthinesses, whichever overload the host language picks. -/
theorem truthy_op_or (g : Scope) (a b : Operand) :
    (op_or g a b).truthy g = (a.truthy g || b.truthy g) := by
  cases a with
  | flag fa =>
    show (py_or g (.flag fa) b).truthy g = _
    rw [truthy_py_or]
  | lit la =>
    cases b with
    | flag fb =>
      show (py_or g (.lit la) (.flag fb)).truthy g = _
      rw [truthy_py_or]
    | lit lb => rfl

/-- Truthiness of a dispatched `a & b` is the conjunction of the
truthinesses, whichever overload the host language picks. -/
theorem truthy_op_and (g : Scope) (a b : Operand) :
    (op_and g a b).truthy g = (a.truthy g && b.truthy g) := by
  cases a with
  | flag fa =>
    show (py_and g (.flag fa) b).truthy g = _
    rw [truthy_py_and]
  | lit la =>
    cases b with
    | flag fb =>
      show (py_and g (.flag fb) (.lit la)).truthy g = _
      rw [truthy_py_and, Bool.and_comm]
    | lit lb => rfl

/-- C2: for every scope mapping, `is_interactive` is `is_main` and not
`is_file`, `is_module` is not `is_main` and `is_file`, and `is_script` is
`is_main` and `is_file`. -/
theorem derived_predicates_def (globals : Scope) :
    is_interactive globals = (is_main globals && !is_file globals)
    ∧ is_module globals = (!is_main globals && is_file globals)
    ∧ is_script globals = (is_main globals && is_file globals) :=
  ⟨rfl, rfl, rfl⟩

/-- C1 counterexample: on a scope whose name is not the entry-point
sentinel and which has no file binding, none of the three mode predicates
holds, so it is not the case that exactly one of them is true. -/
theorem exactly_one_fails_on_plain_scope :
    exactly_one (is_interactive scope_plain) (is_module scope_plain)
      (is_script scope_plain) = false := by decide

/-- C1 amended: for every scope mapping, at most one of `is_interactive`,
`is_module`, `is_script` is true, and exactly one of them is true
precisely when `is_main` or `is_file` holds. -/
theorem modes_at_most_one_and_exactly_one_iff (globals : Scope) :
    at_most_one (is_interactive globals) (is_module globals)
      (is_script globals) = true
    ∧ exactly_one (is_interactive globals) (is_module globals)
        (is_script globals) = (is_main globals || is_file globals) := by
  cases hm : is_main globals <;> cases hf : is_file globals <;>
    simp [is_interactive, is_module, is_script, exactly_one, at_most_one,
      hm, hf]

/-- C3: whenever `is_file` or `is_main` holds on a scope mapping, at least
one of `is_interactive`, `is_module`, `is_script` holds on it. -/
theorem modes_cover (globals : Scope)
    (h : (is_file globals || is_main globals) = true) :
    (is_interactive globals || is_module globals || is_script globals)
      = true := by
  cases hm : is_main globals <;> cases hf : is_file globals <;>
    simp_all [is_interactive, is_module, is_script]

/-- Witness for C3 at the entry-point scope with no file binding. -/
theorem modes_cover_witness :
    (is_file scope_entry || is_main scope_entry) = true
    ∧ (is_interactive scope_entry || is_module scope_entry
        || is_script scope_entry) = true :=
  ⟨by decide, modes_cover scope_entry (by decide)⟩

/-- C4: evaluated against one fixed caller scope, the overloaded `|` and
`&` commute: the truth value of `a | b` equals that of `b | a`, and the
truth value of `a & b` equals that of `b & a`, for all operands, in
particular for two flags and for a flag paired with a plain boolean. -/
theorem logic_ops_commute (g : Scope) (a b : Operand) :
    (op_or g a b).truthy g = (op_or g b a).truthy g
    ∧ (op_and g a b).truthy g = (op_and g b a).truthy g := by
  simp [truthy_op_or, truthy_op_and, Bool.or_comm, Bool.and_comm]

/-- C5: `is_main` holds on a scope mapping exactly when its name binding
is present and equals the entry-point sentinel. -/
theorem is_main_iff (globals : Scope) :
    is_main globals = true
      ↔ ∃ n, globals.name = some n ∧ n = "__main__" := by
  cases hn : globals.name <;> simp [is_main, hn]

/-- Witness for C5 at the entry-point scope. -/
theorem is_main_iff_witness : is_main scope_entry = true :=
  (is_main_iff scope_entry).mpr ⟨"__main__", rfl, rfl⟩

/-- C6: `is_file` holds on a scope mapping exactly when its file binding
is present and non-empty; a present-but-empty or absent binding yields
false. -/
theorem is_file_iff (globals : Scope) :
    is_file globals = true
      ↔ ∃ p, globals.file = some p ∧ p ≠ "" := by
  cases hf : globals.file with
  | none => simp [is_file, hf]
  | some s =>
    simp [is_file, hf]
    rw [← String.isEmpty_iff]
    simp

/-- Witness for C6 at the imported-module scope. -/
theorem is_file_iff_witness : is_file scope_module = true :=
  (is_file_iff scope_module).mpr ⟨"isa.py", rfl, by decide⟩

/-- A scope with no name binding but a file binding. -/
def scope_noname : Scope := ⟨none, some "isa.py"⟩

/-- A scope with neither binding present. -/
def scope_empty : Scope := ⟨none, none⟩

/-- A call stack with no module-level frame: every frame has distinct
local and global mappings. -/
def stack_funcs : List Frame := [⟨1, 2, scope_plain⟩, ⟨3, 4, scope_module⟩]

/-- C7: the predicates are total boolean functions of the scope (they are
plain functions into `Bool` here, so no evaluation can raise), and absent
bindings are treated as falsy: a missing name binding makes `is_main`
false, a missing file binding makes `is_file` false, and a scope missing
both makes the three derived predicates false. -/
theorem absent_bindings_falsy (s t u : Scope)
    (hn : s.name = none) (hf : t.file = none)
    (hun : u.name = none) (huf : u.file = none) :
    is_main s = false ∧ is_file t = false
    ∧ is_interactive u = false ∧ is_module u = false
    ∧ is_script u = false := by
  refine ⟨by simp [is_main, hn], by simp [is_file, hf], ?_, ?_, ?_⟩ <;>
    simp [is_interactive, is_module, is_script, is_main, is_file, hun, huf]

/-- Witness for C7 on concrete scopes with absent bindings. -/
theorem absent_bindings_falsy_witness :
    is_main scope_noname = false ∧ is_file scope_entry = false
    ∧ is_interactive scope_empty = false ∧ is_module scope_empty = false
    ∧ is_script scope_empty = false :=
  absent_bindings_falsy scope_noname scope_entry scope_empty rfl rfl rfl rfl

/-- C8: `get_last_module` returns the first frame of the stack (innermost
first) whose local mapping is identical to its global mapping — every
earlier frame fails the identity test — and returns `none` exactly when no
frame of the stack passes it. -/
theorem get_last_module_first (stack : List Frame) :
    (∀ fr, get_last_module stack = some fr →
      ∃ pre suf, stack = pre ++ fr :: suf
        ∧ fr.f_locals_id = fr.f_globals_id
        ∧ ∀ g ∈ pre, g.f_locals_id ≠ g.f_globals_id)
    ∧ (get_last_module stack = none
        ↔ ∀ fr ∈ stack, fr.f_locals_id ≠ fr.f_globals_id) := by
  induction stack with
  | nil => simp [get_last_module]
  | cons a outer ih =>
    obtain ⟨ih1, ih2⟩ := ih
    by_cases h : a.f_locals_id = a.f_globals_id
    · constructor
      · intro fr hfr
        simp [get_last_module, h] at hfr
        exact hfr ▸ ⟨[], outer, rfl, h, by simp⟩
      · constructor
        · intro hnone
          simp [get_last_module, h] at hnone
        · intro hall
          exact absurd h (hall a (by simp))
    · have hstep : get_last_module (a :: outer) = get_last_module outer := by
        simp [get_last_module, h]
      constructor
      · intro fr hfr
        rw [hstep] at hfr
        obtain ⟨pre, suf, hs, hp, hpre⟩ := ih1 fr hfr
        refine ⟨a :: pre, suf, by simp [hs], hp, ?_⟩
        intro g hg
        rcases List.mem_cons.mp hg with rfl | hg2
        · exact h
        · exact hpre g hg2
      · rw [hstep]
        constructor
        · intro hn fr hfr
          rcases List.mem_cons.mp hfr with rfl | h2
          · exact h
          · exact ih2.mp hn fr h2
        · intro hall
          exact ih2.mpr fun fr hfr => hall fr (by simp [hfr])

/-- Witness for C8: on a stack where every frame has distinct local and
global mappings, the locator returns `none`. -/
theorem get_last_module_first_witness :
    get_last_module stack_funcs = none :=
  (get_last_module_first stack_funcs).2.mpr (by decide)

/-- C9: when the caller module scope is an imported-module scope (name
binding other than the sentinel, non-empty file binding), the flags
`MODULE` and `FILE` evaluate true, `MAIN`, `INTERACTIVE` and `SCRIPT`
evaluate false, and in that same scope `MAIN | SCRIPT` evaluates false
while `MODULE & (not MAIN) & FILE` evaluates true. -/
theorem module_context_flags (stack : List Frame) (fr : Frame)
    (hfr : get_last_module stack = some fr)
    (hname : fr.f_globals.name ≠ some "__main__")
    (hfile : ∃ p, fr.f_globals.file = some p ∧ p ≠ "") :
    flag_bool State.MODULE stack = some true
    ∧ flag_bool State.FILE stack = some true
    ∧ flag_bool State.MAIN stack = some false
    ∧ flag_bool State.INTERACTIVE stack = some false
    ∧ flag_bool State.SCRIPT stack = some false
    ∧ (op_or fr.f_globals (Operand.flag State.MAIN)
        (Operand.flag State.SCRIPT)).truthy fr.f_globals = false
    ∧ (op_and fr.f_globals
        (op_and fr.f_globals (Operand.flag State.MODULE)
          (Operand.lit (!State.predicate State.MAIN fr.f_globals)))
        (Operand.flag State.FILE)).truthy fr.f_globals = true := by
  have hm : is_main fr.f_globals = false := by
    simp [is_main, beq_eq_false_iff_ne, hname]
  have hfi : is_file fr.f_globals = true := by
    obtain ⟨p, hp, hne⟩ := hfile
    have hie : p.isEmpty = false := by
      cases hq : p.isEmpty
      · rfl
      · exact absurd ((String.isEmpty_iff p).mp hq) hne
    simp [is_file, hp, hie]
  refine ⟨?_, ?_, ?_, ?_, ?_, ?_, ?_⟩
  · simp [flag_bool, hfr, State.predicate, is_module, hm, hfi]
  · simp [flag_bool, hfr, State.predicate, hfi]
  · simp [flag_bool, hfr, State.predicate, hm]
  · simp [flag_bool, hfr, State.predicate, is_interactive, hm]
  · simp [flag_bool, hfr, State.predicate, is_script, hm]
  · rw [truthy_op_or]
    simp [Operand.truthy, State.predicate, is_script, hm]
  · rw [truthy_op_and, truthy_op_and]
    simp [Operand.truthy, State.predicate, is_module, hm, hfi]

/-- Witness for C9 at a one-frame stack holding the imported-module
scope. -/
theorem module_context_flags_witness :
    get_last_module stack_module = some frame_module
    ∧ flag_bool State.MODULE stack_module = some true :=
  ⟨rfl, (module_context_flags stack_module frame_module rfl (by decide)
    ⟨"isa.py", rfl, by decide⟩).1⟩

/-- C10 counterexample: with both operands flags in an imported-module
scope, `MODULE & FILE` dispatches to `State.__and__`, whose left operand
`MODULE` is truthy, so the result is `FILE`; the claimed rule for `x & f`
(return `x` whenever `f` is truthy) would demand `MODULE` instead. -/
theorem rand_clause_counterexample :
    (Operand.flag State.FILE).truthy scope_module = true
    ∧ op_and scope_module (Operand.flag State.MODULE)
        (Operand.flag State.FILE) ≠ Operand.flag State.MODULE := by
  decide

/-- C10 amended: the overloaded operators return one of the two operand
objects. With a flag on the left, `f | x` returns `f` when `f` is truthy
and `x` otherwise, and `f & x` returns `f` when `f` is falsy and `x`
otherwise. With any operand on the left, `x | f` returns `x` when `x` is
truthy and `f` otherwise. For `x & f`, when `x` is a plain boolean the
reflected overload runs `f and x`, returning `f` when `f` is falsy and
`x` otherwise; when `x` is itself a flag the left overload runs `x and f`,
returning `x` when `x` is falsy and `f` otherwise. In every case the
truthiness of the result is the disjunction (for `|`) or conjunction
(for `&`) of the truthinesses of the operands. -/
theorem operator_return_values (g : Scope) (f : State) (x : Operand) :
    op_or g (Operand.flag f) x
      = (if (Operand.flag f).truthy g then Operand.flag f else x)
    ∧ op_and g (Operand.flag f) x
      = (if (Operand.flag f).truthy g then x else Operand.flag f)
    ∧ op_or g x (Operand.flag f)
      = (if x.truthy g then x else Operand.flag f)
    ∧ op_and g x (Operand.flag f)
      = (match x with
         | Operand.lit _ =>
           if (Operand.flag f).truthy g then x else Operand.flag f
         | Operand.flag _ =>
           if x.truthy g then Operand.flag f else x)
    ∧ (op_or g (Operand.flag f) x).truthy g
        = ((Operand.flag f).truthy g || x.truthy g)
    ∧ (op_and g (Operand.flag f) x).truthy g
        = ((Operand.flag f).truthy g && x.truthy g)
    ∧ (op_or g x (Operand.flag f)).truthy g
        = (x.truthy g || (Operand.flag f).truthy g)
    ∧ (op_and g x (Operand.flag f)).truthy g
        = (x.truthy g && (Operand.flag f).truthy g) := by
  refine ⟨rfl, rfl, ?_, ?_, truthy_op_or g _ _, truthy_op_and g _ _,
    truthy_op_or g _ _, truthy_op_and g _ _⟩ <;>
    cases x <;> rfl
